import Mathlib

/-!
Verification of the traffic-light state model of PicoTrafficRTOS
(src/PicoFreeRTOS.c).

The shared mutable state of the program is four volatile globals:
g_semaphore_counter (uint16_t), g_sempahore_state (uint8_t),
g_semaphore_led_color (uint8_t), g_semaphore_mode (uint8_t).
We embed them as a record of naturals, with the uint16_t wraparound of
the counter made explicit as arithmetic modulo 2^16.

The writers are vBlinkTask (one iteration = the countdown decrement,
then a call to update_semaphore_counter) and vPushButtonTask (one
button edge = the mode toggle).  Reader tasks are pure functions of the
state.  Reachability interleaves button edges at any point of the
driver loop, whose iteration is split at its sleep point into the
decrement half and the transition-check half.
-/

/-- Timing configuration from the source defines (seconds). -/
def SEMAPHORE_GREEN_DURATION_SEC : Nat := 9

/-- Duration of the red phase. -/
def SEMAPHORE_RED_DURATION_SEC : Nat := 6

/-- Duration of the yellow phase. -/
def SEMAPHORE_YELLOW_DURATION_SEC : Nat := 3

/-- Counter value when the countdown reaches zero. -/
def SEMAPHORE_DURATION_TIMEOUT : Nat := 0

/-- State code of the green light. -/
def SEMAPHORE_GREEN_STATE : Nat := 1

/-- State code of the red light. -/
def SEMAPHORE_RED_STATE : Nat := 2

/-- State code of the yellow light. -/
def SEMAPHORE_YELLOW_STATE : Nat := 0

/-- LED color code red. -/
def SEMAPHORE_LED_COLOR_RED : Nat := 0

/-- LED color code green. -/
def SEMAPHORE_LED_COLOR_GREEN : Nat := 1

/-- LED color code yellow. -/
def SEMAPHORE_LED_COLOR_YELLOW : Nat := 3

/-- Operation mode: normal day mode with full cycle. -/
def SEMAPHORE_DAILY_MODE : Nat := 0

/-- Operation mode: night mode (yellow blinking). -/
def SEMAPHORE_NIGHT_MODE : Nat := 1

/-- Modulus of the uint16_t countdown counter. -/
def UINT16_MOD : Nat := 65536

/-- The four shared globals of PicoFreeRTOS.c as one record.
Field names follow the source variables. -/
structure SemState where
  counter : Nat
  state : Nat
  color : Nat
  mode : Nat
deriving Repr, DecidableEq

/-- Initial values of the globals (lines 78-81 of the source). -/
def bootState : SemState :=
  { counter := SEMAPHORE_GREEN_DURATION_SEC
    state := SEMAPHORE_GREEN_STATE
    color := SEMAPHORE_LED_COLOR_GREEN
    mode := SEMAPHORE_DAILY_MODE }

/-- Compact constructor for a copy of the globals, in declaration
order: counter, state, color, mode. -/
def mkSem (c st col m : Nat) : SemState :=
  { counter := c, state := st, color := col, mode := m }

/-- Embedding of update_semaphore_counter (source lines 87-113): when
the counter has reached the timeout value, switch on the passed state
code and install the next phase with its duration and color; the switch
has no default branch, so any other state code leaves everything
unchanged. -/
def update_semaphore_counter (current_state : Nat) (s : SemState) : SemState :=
  if s.counter = SEMAPHORE_DURATION_TIMEOUT then
    if current_state = SEMAPHORE_GREEN_STATE then
      { s with counter := SEMAPHORE_YELLOW_DURATION_SEC
               state := SEMAPHORE_YELLOW_STATE
               color := SEMAPHORE_LED_COLOR_YELLOW }
    else if current_state = SEMAPHORE_YELLOW_STATE then
      { s with counter := SEMAPHORE_RED_DURATION_SEC
               state := SEMAPHORE_RED_STATE
               color := SEMAPHORE_LED_COLOR_RED }
    else if current_state = SEMAPHORE_RED_STATE then
      { s with counter := SEMAPHORE_GREEN_DURATION_SEC
               state := SEMAPHORE_GREEN_STATE
               color := SEMAPHORE_LED_COLOR_GREEN }
    else s
  else s

/-- First half of a vBlinkTask iteration (source line 244-247): in day
mode the draw statement post-decrements g_semaphore_counter, a uint16_t,
so the state effect is a wrapping decrement modulo 2^16; in night mode
the counter is untouched. -/
def vBlinkTask_tick (s : SemState) : SemState :=
  if s.mode = SEMAPHORE_DAILY_MODE then
    { s with counter := (s.counter + (UINT16_MOD - 1)) % UINT16_MOD }
  else s

/-- Second half of a vBlinkTask iteration (source line 251): after the
one-second delay the task calls update_semaphore_counter with the
current g_sempahore_state, in every mode. -/
def vBlinkTask_check (s : SemState) : SemState :=
  update_semaphore_counter s.state s

/-- One full iteration of the vBlinkTask loop body: decrement half then
transition-check half. -/
def vBlinkTask_iteration (s : SemState) : SemState :=
  vBlinkTask_check (vBlinkTask_tick s)

/-- State effect of one detected button edge in vPushButtonTask
(source lines 124-133): from night mode, reset counter, color, state
and switch to day mode; otherwise switch to night mode only. -/
def vPushButtonTask_edge (s : SemState) : SemState :=
  if s.mode = SEMAPHORE_NIGHT_MODE then
    { counter := SEMAPHORE_GREEN_DURATION_SEC
      color := SEMAPHORE_LED_COLOR_GREEN
      state := SEMAPHORE_GREEN_STATE
      mode := SEMAPHORE_DAILY_MODE }
  else { s with mode := SEMAPHORE_NIGHT_MODE }

/-- Text drawn by one vDisplayTask cycle (source lines 149-157): in day
mode the state code selects a message; night mode draws no message. -/
def vDisplayTask_message (s : SemState) : Option String :=
  if s.mode = SEMAPHORE_DAILY_MODE then
    if s.state = SEMAPHORE_GREEN_STATE then some ("Siga")
    else if s.state = SEMAPHORE_YELLOW_STATE then some ("Atencao")
    else if s.state = SEMAPHORE_RED_STATE then some ("Pare")
    else none
  else none

/-- Iterated decrement half: n consecutive ticks of the driver. -/
def vBlinkTask_ticks : Nat → SemState → SemState
  | 0, s => s
  | n + 1, s => vBlinkTask_ticks n (vBlinkTask_tick s)

/-- Render color that the source pairs with each state code in its
transition and reset writes. -/
def ledColorOf (st : Nat) : Nat :=
  if st = SEMAPHORE_GREEN_STATE then SEMAPHORE_LED_COLOR_GREEN
  else if st = SEMAPHORE_YELLOW_STATE then SEMAPHORE_LED_COLOR_YELLOW
  else SEMAPHORE_LED_COLOR_RED

/-- Phase duration table keyed by state code. -/
def duration (st : Nat) : Nat :=
  if st = SEMAPHORE_GREEN_STATE then SEMAPHORE_GREEN_DURATION_SEC
  else if st = SEMAPHORE_YELLOW_STATE then SEMAPHORE_YELLOW_DURATION_SEC
  else SEMAPHORE_RED_DURATION_SEC

/-- Program counter of the driver task: at the top of the loop (about
to draw and decrement) or past its sleep point (about to run the
transition check). -/
inductive DriverPc where
  | atTop : DriverPc
  | midIter : DriverPc
deriving Repr, DecidableEq

/-- A system configuration: where the driver is in its loop, plus the
shared globals. -/
structure Sys where
  pc : DriverPc
  sem : SemState
deriving Repr, DecidableEq

/-- Configurations reachable from boot under the driver loop with
button edges interleaved at any point (before the decrement, during the
one-second sleep, or after the check). -/
inductive Reachable : Sys → Prop where
  | boot : Reachable { pc := DriverPc.atTop, sem := bootState }
  | tick {s : SemState} :
      Reachable { pc := DriverPc.atTop, sem := s } →
      Reachable { pc := DriverPc.midIter, sem := vBlinkTask_tick s }
  | check {s : SemState} :
      Reachable { pc := DriverPc.midIter, sem := s } →
      Reachable { pc := DriverPc.atTop, sem := vBlinkTask_check s }
  | button {p : DriverPc} {s : SemState} :
      Reachable { pc := p, sem := s } →
      Reachable { pc := p, sem := vPushButtonTask_edge s }

/-- Consistency of one observed copy of the globals: the state code is
one of the three defined states, the stored color is the color the
source pairs with that state, and the counter is within the current
phase duration. -/
def ValidSnapshot (s : SemState) : Prop :=
  (s.state = SEMAPHORE_YELLOW_STATE ∨ s.state = SEMAPHORE_GREEN_STATE ∨
    s.state = SEMAPHORE_RED_STATE) ∧
  s.color = ledColorOf s.state ∧
  s.counter ≤ duration s.state

instance (s : SemState) : Decidable (ValidSnapshot s) := by
  unfold ValidSnapshot
  infer_instance

/-- Inductive invariant of the system: the globals form a valid
snapshot, and whenever the driver is at the top of its loop in day
mode the counter is at least one. -/
def SysInv (y : Sys) : Prop :=
  ValidSnapshot y.sem ∧
  (y.pc = DriverPc.atTop → y.sem.mode = SEMAPHORE_DAILY_MODE → 1 ≤ y.sem.counter)

/-- Single-write granularity of the firing case of
update_semaphore_counter: the source mutates the shared globals with
three separate assignments (counter, then state, then color), and no
lock or critical section guards them, so a concurrent reader can
observe the state after one or two of the three writes.  This lists
the observable states of the write sequence in source order; outside
the firing case no write happens and the list is empty. -/
def update_write_states (current_state : Nat) (s : SemState) : List SemState :=
  if s.counter = SEMAPHORE_DURATION_TIMEOUT then
    if current_state = SEMAPHORE_GREEN_STATE then
      [ { s with counter := SEMAPHORE_YELLOW_DURATION_SEC },
        { s with counter := SEMAPHORE_YELLOW_DURATION_SEC
                 state := SEMAPHORE_YELLOW_STATE },
        { s with counter := SEMAPHORE_YELLOW_DURATION_SEC
                 state := SEMAPHORE_YELLOW_STATE
                 color := SEMAPHORE_LED_COLOR_YELLOW } ]
    else if current_state = SEMAPHORE_YELLOW_STATE then
      [ { s with counter := SEMAPHORE_RED_DURATION_SEC },
        { s with counter := SEMAPHORE_RED_DURATION_SEC
                 state := SEMAPHORE_RED_STATE },
        { s with counter := SEMAPHORE_RED_DURATION_SEC
                 state := SEMAPHORE_RED_STATE
                 color := SEMAPHORE_LED_COLOR_RED } ]
    else if current_state = SEMAPHORE_RED_STATE then
      [ { s with counter := SEMAPHORE_GREEN_DURATION_SEC },
        { s with counter := SEMAPHORE_GREEN_DURATION_SEC
                 state := SEMAPHORE_GREEN_STATE },
        { s with counter := SEMAPHORE_GREEN_DURATION_SEC
                 state := SEMAPHORE_GREEN_STATE
                 color := SEMAPHORE_LED_COLOR_GREEN } ]
    else []
  else []

theorem vBlinkTask_tick_state (s : SemState) :
    (vBlinkTask_tick s).state = s.state := by
  unfold vBlinkTask_tick
  split <;> rfl

theorem vBlinkTask_tick_color (s : SemState) :
    (vBlinkTask_tick s).color = s.color := by
  unfold vBlinkTask_tick
  split <;> rfl

theorem vBlinkTask_tick_mode (s : SemState) :
    (vBlinkTask_tick s).mode = s.mode := by
  unfold vBlinkTask_tick
  split <;> rfl

theorem vBlinkTask_tick_counter_day (s : SemState)
    (hm : s.mode = SEMAPHORE_DAILY_MODE) (h1 : 1 ≤ s.counter)
    (h9 : s.counter ≤ 9) :
    (vBlinkTask_tick s).counter = s.counter - 1 := by
  unfold vBlinkTask_tick UINT16_MOD
  rw [if_pos hm]
  show (s.counter + (65536 - 1)) % 65536 = s.counter - 1
  omega

theorem vBlinkTask_tick_night (s : SemState)
    (hm : s.mode ≠ SEMAPHORE_DAILY_MODE) :
    vBlinkTask_tick s = s := by
  unfold vBlinkTask_tick
  exact if_neg hm

theorem update_semaphore_counter_nonzero (c : Nat) (s : SemState)
    (h : s.counter ≠ 0) : update_semaphore_counter c s = s := by
  unfold update_semaphore_counter
  exact if_neg h

theorem duration_le_nine (st : Nat) : duration st ≤ 9 := by
  unfold duration SEMAPHORE_GREEN_DURATION_SEC SEMAPHORE_YELLOW_DURATION_SEC
    SEMAPHORE_RED_DURATION_SEC
  split
  · omega
  · split <;> omega

theorem SysInv_boot : SysInv { pc := DriverPc.atTop, sem := bootState } := by
  refine ⟨by decide, ?_⟩
  intro _ _
  decide

theorem SysInv_tick {s : SemState}
    (h : SysInv { pc := DriverPc.atTop, sem := s }) :
    SysInv { pc := DriverPc.midIter, sem := vBlinkTask_tick s } := by
  obtain ⟨⟨hst, hcol, hcnt⟩, htop⟩ := h
  simp only at hst hcol hcnt htop
  refine ⟨⟨?_, ?_, ?_⟩, ?_⟩
  · rw [vBlinkTask_tick_state]
    exact hst
  · rw [vBlinkTask_tick_color, vBlinkTask_tick_state]
    exact hcol
  · rw [vBlinkTask_tick_state]
    by_cases hm : s.mode = SEMAPHORE_DAILY_MODE
    · have h1 : 1 ≤ s.counter := htop trivial hm
      have h9 : s.counter ≤ 9 := le_trans hcnt (duration_le_nine s.state)
      show (vBlinkTask_tick s).counter ≤ duration s.state
      rw [vBlinkTask_tick_counter_day s hm h1 h9]
      omega
    · rw [vBlinkTask_tick_night s hm]
      exact hcnt
  · intro hpc
    exact absurd hpc (by simp)

theorem SysInv_check {s : SemState}
    (h : SysInv { pc := DriverPc.midIter, sem := s }) :
    SysInv { pc := DriverPc.atTop, sem := vBlinkTask_check s } := by
  obtain ⟨c, st, col, m⟩ := s
  obtain ⟨⟨hst, hcol, hcnt⟩, _⟩ := h
  simp only at hst hcol hcnt
  by_cases hc : c = 0
  · subst hc
    rcases hst with h0 | h1 | h2 <;> subst_vars <;>
      refine ⟨?_, fun _ _ => ?_⟩ <;>
      simp [vBlinkTask_check, update_semaphore_counter, ValidSnapshot, ledColorOf,
        duration, SEMAPHORE_DURATION_TIMEOUT, SEMAPHORE_GREEN_STATE,
        SEMAPHORE_YELLOW_STATE, SEMAPHORE_RED_STATE, SEMAPHORE_LED_COLOR_RED,
        SEMAPHORE_LED_COLOR_GREEN, SEMAPHORE_LED_COLOR_YELLOW,
        SEMAPHORE_GREEN_DURATION_SEC, SEMAPHORE_YELLOW_DURATION_SEC,
        SEMAPHORE_RED_DURATION_SEC]
  · have he : vBlinkTask_check ⟨c, st, col, m⟩ = ⟨c, st, col, m⟩ :=
      update_semaphore_counter_nonzero st ⟨c, st, col, m⟩ hc
    rw [he]
    exact ⟨⟨hst, hcol, hcnt⟩, fun _ _ => Nat.one_le_iff_ne_zero.mpr hc⟩

theorem SysInv_button {p : DriverPc} {s : SemState}
    (h : SysInv { pc := p, sem := s }) :
    SysInv { pc := p, sem := vPushButtonTask_edge s } := by
  obtain ⟨⟨hst, hcol, hcnt⟩, htop⟩ := h
  simp only at hst hcol hcnt htop
  unfold vPushButtonTask_edge
  by_cases hm : s.mode = SEMAPHORE_NIGHT_MODE
  · rw [if_pos hm]
    refine ⟨?_, fun _ _ => ?_⟩ <;> simp only <;> decide
  · rw [if_neg hm]
    refine ⟨⟨hst, hcol, hcnt⟩, fun _ hd => ?_⟩
    exact absurd hd (by simp [SEMAPHORE_NIGHT_MODE, SEMAPHORE_DAILY_MODE])

/-- Every reachable configuration satisfies the inductive invariant. -/
theorem SysInv_reachable : ∀ y : Sys, Reachable y → SysInv y := by
  intro y h
  induction h with
  | boot => exact SysInv_boot
  | tick _ ih => exact SysInv_tick ih
  | check _ ih => exact SysInv_check ih
  | button _ ih => exact SysInv_button ih

/-- The day-mode configuration with the green phase and counter zero,
midway through a driver iteration, is reachable: eight full driver
iterations count the green phase down from nine to one, and the ninth
decrement reaches zero before its transition check has run. -/
theorem Reachable_day_green_zero :
    Reachable { pc := DriverPc.midIter,
                sem := mkSem 0 SEMAPHORE_GREEN_STATE
                  SEMAPHORE_LED_COLOR_GREEN SEMAPHORE_DAILY_MODE } := by
  have step : ∀ {s : SemState}, Reachable { pc := DriverPc.atTop, sem := s } →
      Reachable { pc := DriverPc.atTop,
                  sem := vBlinkTask_check (vBlinkTask_tick s) } :=
    fun h => Reachable.check (Reachable.tick h)
  have h8 := step (step (step (step (step (step (step (step Reachable.boot)))))))
  have h9 := Reachable.tick h8
  exact Eq.mp (congrArg Reachable (by decide)) h9

/-- Claim C1 is false as stated on the code: the night-mode
configuration with the frozen green phase and counter zero is
reachable (a button edge during the sleep of the ninth driver
iteration), and one driver period from it mutates both the phase and
the counter, because vBlinkTask calls the transition check in every
mode. -/
theorem C1_counterexample :
    Reachable { pc := DriverPc.midIter,
                sem := mkSem 0 SEMAPHORE_GREEN_STATE
                  SEMAPHORE_LED_COLOR_GREEN SEMAPHORE_NIGHT_MODE } ∧
    vBlinkTask_iteration (mkSem 0 SEMAPHORE_GREEN_STATE
        SEMAPHORE_LED_COLOR_GREEN SEMAPHORE_NIGHT_MODE) =
      mkSem SEMAPHORE_YELLOW_DURATION_SEC SEMAPHORE_YELLOW_STATE
        SEMAPHORE_LED_COLOR_YELLOW SEMAPHORE_NIGHT_MODE := by
  constructor
  · have h := Reachable.button Reachable_day_green_zero
    exact Eq.mp (congrArg Reachable (by decide)) h
  · decide

/-- Claim C1 amended: in night mode a driver period reduces to the
bare transition check (the decrement half is a no-op), so it leaves
the whole state unchanged whenever the counter is nonzero; the check
does not consult the mode, so once the counter is zero it fires even
in night mode. -/
theorem C1_night_noop (s : SemState) (hm : s.mode = SEMAPHORE_NIGHT_MODE) :
    vBlinkTask_iteration s = update_semaphore_counter s.state s ∧
    (s.counter ≠ 0 → vBlinkTask_iteration s = s) := by
  have hd : s.mode ≠ SEMAPHORE_DAILY_MODE := by
    rw [hm]
    decide
  have ht : vBlinkTask_tick s = s := vBlinkTask_tick_night s hd
  constructor
  · unfold vBlinkTask_iteration
    rw [ht]
    rfl
  · intro hc
    unfold vBlinkTask_iteration
    rw [ht]
    exact update_semaphore_counter_nonzero s.state s hc

theorem C1_witness :
    vBlinkTask_iteration (mkSem 4 SEMAPHORE_RED_STATE
        SEMAPHORE_LED_COLOR_RED SEMAPHORE_NIGHT_MODE) =
      mkSem 4 SEMAPHORE_RED_STATE
        SEMAPHORE_LED_COLOR_RED SEMAPHORE_NIGHT_MODE :=
  (C1_night_noop _ (by decide)).2 (by decide)

/-- Claim C2 is false as stated on the code: the countdown decrement
is not saturating; applied to a day-mode state whose counter is
already zero it wraps the uint16_t counter to 65535 instead of
leaving it at zero. -/
theorem C2_counterexample :
    (vBlinkTask_tick (mkSem 0 SEMAPHORE_GREEN_STATE
        SEMAPHORE_LED_COLOR_GREEN SEMAPHORE_DAILY_MODE)).counter = 65535 := by
  decide

/-- Claim C2 amended: the decrement is a plain wrapping uint16_t
decrement, but the wrap is never exercised: in every reachable
configuration the counter at the top of a day-mode driver iteration is
at least one, the transition check leaves any state with a nonzero
counter unchanged (so the phase transition fires only from counter
zero), and firing from a defined state code restores a nonzero
counter, so the zero signal is consumed exactly once per transition. -/
theorem C2_decrement_never_wraps :
    (∀ y : Sys, Reachable y → y.pc = DriverPc.atTop →
      y.sem.mode = SEMAPHORE_DAILY_MODE → 1 ≤ y.sem.counter) ∧
    (∀ (c : Nat) (s : SemState), s.counter ≠ 0 →
      update_semaphore_counter c s = s) ∧
    (∀ s : SemState, s.counter = 0 →
      (s.state = SEMAPHORE_YELLOW_STATE ∨ s.state = SEMAPHORE_GREEN_STATE ∨
        s.state = SEMAPHORE_RED_STATE) →
      1 ≤ (update_semaphore_counter s.state s).counter) := by
  refine ⟨fun y h => (SysInv_reachable y h).2, update_semaphore_counter_nonzero, ?_⟩
  intro s hc hst
  obtain ⟨c, st, col, m⟩ := s
  simp only at hc hst
  subst hc
  rcases hst with h | h | h <;> subst h <;>
    simp [update_semaphore_counter, SEMAPHORE_DURATION_TIMEOUT,
      SEMAPHORE_GREEN_STATE, SEMAPHORE_YELLOW_STATE, SEMAPHORE_RED_STATE,
      SEMAPHORE_GREEN_DURATION_SEC, SEMAPHORE_YELLOW_DURATION_SEC,
      SEMAPHORE_RED_DURATION_SEC]

theorem C2_witness :
    1 ≤ bootState.counter ∧
    update_semaphore_counter 1 (mkSem 5 1 1 0) = mkSem 5 1 1 0 ∧
    1 ≤ (update_semaphore_counter SEMAPHORE_GREEN_STATE
      (mkSem 0 SEMAPHORE_GREEN_STATE SEMAPHORE_LED_COLOR_GREEN
        SEMAPHORE_DAILY_MODE)).counter :=
  ⟨C2_decrement_never_wraps.1 _ Reachable.boot rfl rfl,
   C2_decrement_never_wraps.2.1 1 _ (by decide),
   C2_decrement_never_wraps.2.2 _ (by decide) (by decide)⟩

/-- Claim C3: in day mode the phase sequence under repeated ticks and
end-of-countdown checks cycles exactly green, yellow, red, green with
the reset durations 9, 3 and 6: from the boot state (Day, Green, 9),
nine ticks leave the counter at zero with the state still green, the
check then yields (Yellow, 3); three more ticks and the check yield
(Red, 6); six more ticks and the check yield (Green, 9) again. -/
theorem C3_day_cycle :
    (vBlinkTask_ticks 9 bootState).counter = 0 ∧
    (vBlinkTask_ticks 9 bootState).state = SEMAPHORE_GREEN_STATE ∧
    vBlinkTask_check (vBlinkTask_ticks 9 bootState) =
      mkSem 3 SEMAPHORE_YELLOW_STATE SEMAPHORE_LED_COLOR_YELLOW
        SEMAPHORE_DAILY_MODE ∧
    (vBlinkTask_ticks 3 (vBlinkTask_check
      (vBlinkTask_ticks 9 bootState))).counter = 0 ∧
    vBlinkTask_check (vBlinkTask_ticks 3 (vBlinkTask_check
        (vBlinkTask_ticks 9 bootState))) =
      mkSem 6 SEMAPHORE_RED_STATE SEMAPHORE_LED_COLOR_RED
        SEMAPHORE_DAILY_MODE ∧
    (vBlinkTask_ticks 6 (vBlinkTask_check (vBlinkTask_ticks 3
      (vBlinkTask_check (vBlinkTask_ticks 9 bootState))))).counter = 0 ∧
    vBlinkTask_check (vBlinkTask_ticks 6 (vBlinkTask_check (vBlinkTask_ticks 3
        (vBlinkTask_check (vBlinkTask_ticks 9 bootState))))) = bootState := by
  decide

/-- Claim C4: in every configuration reachable from the boot state by
driver decrements, transition checks and button edges, the counter is
at most the duration of the current phase, where the duration table
assigns 9 to green, 3 to yellow and 6 to red. -/
theorem C4_counter_in_range (y : Sys) (h : Reachable y) :
    y.sem.counter ≤ duration y.sem.state ∧
    duration SEMAPHORE_GREEN_STATE = 9 ∧
    duration SEMAPHORE_YELLOW_STATE = 3 ∧
    duration SEMAPHORE_RED_STATE = 6 :=
  ⟨(SysInv_reachable y h).1.2.2, by decide, by decide, by decide⟩

theorem C4_witness :
    (vBlinkTask_tick bootState).counter ≤
      duration (vBlinkTask_tick bootState).state :=
  (C4_counter_in_range
    { pc := DriverPc.midIter, sem := vBlinkTask_tick bootState }
    (Reachable.tick Reachable.boot)).1

/-- Claim C5: from any night-mode state, whatever phase, color and
counter were frozen, one button edge resets the globals to counter 9,
state green, color green, mode day. -/
theorem C5_night_to_day_reset (c st col : Nat) :
    vPushButtonTask_edge (mkSem c st col SEMAPHORE_NIGHT_MODE) =
      mkSem 9 SEMAPHORE_GREEN_STATE SEMAPHORE_LED_COLOR_GREEN
        SEMAPHORE_DAILY_MODE := by
  unfold vPushButtonTask_edge mkSem
  simp [SEMAPHORE_GREEN_DURATION_SEC, SEMAPHORE_GREEN_STATE,
    SEMAPHORE_LED_COLOR_GREEN, SEMAPHORE_DAILY_MODE, SEMAPHORE_NIGHT_MODE]

/-- Claim C6: one button edge from any day-mode state changes only the
mode, freezing counter, state and color; concretely, from (Day, Red, 4)
one edge yields the same frozen fields in night mode and a second edge
resets to (Day, Green, 9). -/
theorem C6_day_to_night_freeze (c st col : Nat) :
    vPushButtonTask_edge (mkSem c st col SEMAPHORE_DAILY_MODE) =
      mkSem c st col SEMAPHORE_NIGHT_MODE ∧
    vPushButtonTask_edge (mkSem 4 SEMAPHORE_RED_STATE SEMAPHORE_LED_COLOR_RED
        SEMAPHORE_DAILY_MODE) =
      mkSem 4 SEMAPHORE_RED_STATE SEMAPHORE_LED_COLOR_RED
        SEMAPHORE_NIGHT_MODE ∧
    vPushButtonTask_edge (vPushButtonTask_edge (mkSem 4 SEMAPHORE_RED_STATE
        SEMAPHORE_LED_COLOR_RED SEMAPHORE_DAILY_MODE)) = bootState := by
  refine ⟨?_, by decide, by decide⟩
  unfold vPushButtonTask_edge mkSem
  simp [SEMAPHORE_DAILY_MODE, SEMAPHORE_NIGHT_MODE]

/-- Claim C7 is false as stated on the code: no lock or atomic
composite guards the four globals; from the reachable day-mode
configuration with the green phase and counter zero, the second write
of the firing transition exposes the snapshot pairing the new counter
and the new yellow state code with the old green color, which is not a
valid state of the cycle. -/
theorem C7_counterexample :
    Reachable { pc := DriverPc.midIter,
                sem := mkSem 0 SEMAPHORE_GREEN_STATE
                  SEMAPHORE_LED_COLOR_GREEN SEMAPHORE_DAILY_MODE } ∧
    mkSem SEMAPHORE_YELLOW_DURATION_SEC SEMAPHORE_YELLOW_STATE
        SEMAPHORE_LED_COLOR_GREEN SEMAPHORE_DAILY_MODE ∈
      update_write_states SEMAPHORE_GREEN_STATE
        (mkSem 0 SEMAPHORE_GREEN_STATE SEMAPHORE_LED_COLOR_GREEN
          SEMAPHORE_DAILY_MODE) ∧
    ¬ ValidSnapshot (mkSem SEMAPHORE_YELLOW_DURATION_SEC
        SEMAPHORE_YELLOW_STATE SEMAPHORE_LED_COLOR_GREEN
        SEMAPHORE_DAILY_MODE) :=
  ⟨Reachable_day_green_zero, by decide, by decide⟩

/-- Claim C7 amended: at the atomic-step boundaries of the task model
every reachable snapshot is a valid state of the cycle, but the firing
transition itself is three separate unguarded writes, and from every
consistent state with counter zero and a defined state code the write
sequence contains an intermediate snapshot that is not a valid state
(its color still belongs to the previous phase), so a presenter
reading between the writes observes a torn combination. -/
theorem C7_torn_write_states :
    (∀ y : Sys, Reachable y → ValidSnapshot y.sem) ∧
    (∀ s : SemState, s.counter = 0 → s.color = ledColorOf s.state →
      (s.state = SEMAPHORE_YELLOW_STATE ∨ s.state = SEMAPHORE_GREEN_STATE ∨
        s.state = SEMAPHORE_RED_STATE) →
      ∃ t ∈ update_write_states s.state s, ¬ ValidSnapshot t) := by
  refine ⟨fun y h => (SysInv_reachable y h).1, ?_⟩
  intro s hc hcol hst
  obtain ⟨c, st, col, m⟩ := s
  simp only at hc hcol hst
  subst hc
  rcases hst with h | h | h <;> subst h <;> subst hcol
  · refine ⟨mkSem SEMAPHORE_RED_DURATION_SEC SEMAPHORE_RED_STATE
      (ledColorOf SEMAPHORE_YELLOW_STATE) m, ?_, ?_⟩ <;>
      simp [update_write_states, ValidSnapshot, ledColorOf, duration, mkSem,
        SEMAPHORE_DURATION_TIMEOUT, SEMAPHORE_GREEN_STATE,
        SEMAPHORE_YELLOW_STATE, SEMAPHORE_RED_STATE,
        SEMAPHORE_LED_COLOR_GREEN, SEMAPHORE_LED_COLOR_YELLOW,
        SEMAPHORE_LED_COLOR_RED, SEMAPHORE_GREEN_DURATION_SEC,
        SEMAPHORE_YELLOW_DURATION_SEC, SEMAPHORE_RED_DURATION_SEC]
  · refine ⟨mkSem SEMAPHORE_YELLOW_DURATION_SEC SEMAPHORE_YELLOW_STATE
      (ledColorOf SEMAPHORE_GREEN_STATE) m, ?_, ?_⟩ <;>
      simp [update_write_states, ValidSnapshot, ledColorOf, duration, mkSem,
        SEMAPHORE_DURATION_TIMEOUT, SEMAPHORE_GREEN_STATE,
        SEMAPHORE_YELLOW_STATE, SEMAPHORE_RED_STATE,
        SEMAPHORE_LED_COLOR_GREEN, SEMAPHORE_LED_COLOR_YELLOW,
        SEMAPHORE_LED_COLOR_RED, SEMAPHORE_GREEN_DURATION_SEC,
        SEMAPHORE_YELLOW_DURATION_SEC, SEMAPHORE_RED_DURATION_SEC]
  · refine ⟨mkSem SEMAPHORE_GREEN_DURATION_SEC SEMAPHORE_GREEN_STATE
      (ledColorOf SEMAPHORE_RED_STATE) m, ?_, ?_⟩ <;>
      simp [update_write_states, ValidSnapshot, ledColorOf, duration, mkSem,
        SEMAPHORE_DURATION_TIMEOUT, SEMAPHORE_GREEN_STATE,
        SEMAPHORE_YELLOW_STATE, SEMAPHORE_RED_STATE,
        SEMAPHORE_LED_COLOR_GREEN, SEMAPHORE_LED_COLOR_YELLOW,
        SEMAPHORE_LED_COLOR_RED, SEMAPHORE_GREEN_DURATION_SEC,
        SEMAPHORE_YELLOW_DURATION_SEC, SEMAPHORE_RED_DURATION_SEC]

theorem C7_witness :
    ValidSnapshot bootState ∧
    ∃ t ∈ update_write_states SEMAPHORE_GREEN_STATE
        (mkSem 0 SEMAPHORE_GREEN_STATE SEMAPHORE_LED_COLOR_GREEN
          SEMAPHORE_DAILY_MODE), ¬ ValidSnapshot t :=
  ⟨C7_torn_write_states.1 { pc := DriverPc.atTop, sem := bootState }
    Reachable.boot,
   C7_torn_write_states.2
    (mkSem 0 SEMAPHORE_GREEN_STATE SEMAPHORE_LED_COLOR_GREEN
      SEMAPHORE_DAILY_MODE) (by decide) (by decide) (by decide)⟩

/-- Claim C8 is false as literally stated: at the day-mode green state
the display task draws the string Siga, not the string go. -/
theorem C8_counterexample :
    vDisplayTask_message bootState = some ("Siga") ∧
    vDisplayTask_message bootState ≠ some ("go") := by
  decide

/-- Claim C8 amended: the textual cues are the Portuguese strings of
the source: in day mode the green state draws Siga (go), the yellow
state draws Atencao (caution) and the red state draws Pare (stop);
night mode draws no textual cue, whatever the state, counter and
color values. -/
theorem C8_display_cues (c col st : Nat) :
    vDisplayTask_message (mkSem c SEMAPHORE_GREEN_STATE col
      SEMAPHORE_DAILY_MODE) = some ("Siga") ∧
    vDisplayTask_message (mkSem c SEMAPHORE_YELLOW_STATE col
      SEMAPHORE_DAILY_MODE) = some ("Atencao") ∧
    vDisplayTask_message (mkSem c SEMAPHORE_RED_STATE col
      SEMAPHORE_DAILY_MODE) = some ("Pare") ∧
    vDisplayTask_message (mkSem c st col SEMAPHORE_NIGHT_MODE) = none := by
  refine ⟨?_, ?_, ?_, ?_⟩ <;>
    simp [vDisplayTask_message, mkSem, SEMAPHORE_DAILY_MODE,
      SEMAPHORE_NIGHT_MODE, SEMAPHORE_GREEN_STATE, SEMAPHORE_YELLOW_STATE,
      SEMAPHORE_RED_STATE]

/-- Claim C9: the phase-to-color pairing is one-to-one and preserved
by every operation: in every configuration reachable from the boot
state, the stored render color equals the color the source associates
with the current state code (green state with the green color code,
yellow with yellow, red with red). -/
theorem C9_color_matches_phase (y : Sys) (h : Reachable y) :
    y.sem.color = ledColorOf y.sem.state ∧
    ledColorOf SEMAPHORE_GREEN_STATE = SEMAPHORE_LED_COLOR_GREEN ∧
    ledColorOf SEMAPHORE_YELLOW_STATE = SEMAPHORE_LED_COLOR_YELLOW ∧
    ledColorOf SEMAPHORE_RED_STATE = SEMAPHORE_LED_COLOR_RED :=
  ⟨(SysInv_reachable y h).1.2.1, by decide, by decide, by decide⟩

theorem C9_witness :
    bootState.color = ledColorOf bootState.state :=
  (C9_color_matches_phase { pc := DriverPc.atTop, sem := bootState }
    Reachable.boot).1

/-- Claim C10: update_semaphore_counter mutates nothing outside its
firing case: with a nonzero counter it returns all four globals
unchanged for every passed state code, and with a passed state code
outside the three defined states it returns them unchanged even at
counter zero, because the switch has no default branch. -/
theorem C10_update_frame (cur : Nat) (s : SemState) :
    (s.counter ≠ 0 → update_semaphore_counter cur s = s) ∧
    (cur ≠ SEMAPHORE_GREEN_STATE → cur ≠ SEMAPHORE_YELLOW_STATE →
      cur ≠ SEMAPHORE_RED_STATE → update_semaphore_counter cur s = s) := by
  constructor
  · exact update_semaphore_counter_nonzero cur s
  · intro h1 h2 h3
    unfold update_semaphore_counter
    simp [h1, h2, h3]

theorem C10_witness :
    update_semaphore_counter SEMAPHORE_GREEN_STATE (mkSem 5 1 1 0) =
      mkSem 5 1 1 0 ∧
    update_semaphore_counter 7 (mkSem 0 7 0 0) = mkSem 0 7 0 0 :=
  ⟨(C10_update_frame SEMAPHORE_GREEN_STATE (mkSem 5 1 1 0)).1 (by decide),
   (C10_update_frame 7 (mkSem 0 7 0 0)).2 (by decide) (by decide) (by decide)⟩
